import Mathlib

/-!
Verification of the hurl execution core: the body-content parser
(`src/parser/bytes.rs`) and the entry runner (`src/runner/entry.rs`).

The two source files under verification are embedded faithfully below.
Their collaborators (the `Reader`, the combinator primitives, the base64
value parser, the JSON/XML sub-grammars, the template/capture/assert
evaluators and the HTTP client) live elsewhere in the repository; each is
either modelled from the specification (marked `Modelled from the spec:`)
or kept as an explicit parameter of the embedded function.
-/

set_option maxRecDepth 10000

namespace Hurl

/-! ## Positions and reader state

Modelled from the spec: the `Reader` is a cursor over the DSL source text,
tracking byte offset plus 1-based line/column; saved and restored wholesale
for backtracking. -/

structure Pos where
  line : Nat
  column : Nat
deriving DecidableEq, Repr

structure ReaderState where
  cursor : Nat
  pos : Pos
deriving DecidableEq, Repr

structure Reader where
  buffer : List Char
  state : ReaderState
deriving DecidableEq, Repr

def Reader.init (s : String) : Reader :=
  { buffer := s.data, state := { cursor := 0, pos := { line := 1, column := 1 } } }

/-- Advance the position over one character: a newline bumps the line and
resets the column, any other character bumps the column. -/
def advanceChar (st : ReaderState) (c : Char) : ReaderState :=
  { cursor := st.cursor + 1,
    pos := if c = '\n' then { line := st.pos.line + 1, column := 1 }
           else { line := st.pos.line, column := st.pos.column + 1 } }

/-- The characters of the buffer not yet consumed. -/
def Reader.remaining (r : Reader) : List Char := r.buffer.drop r.state.cursor

/-- Advance the reader over (at most) the next `n` characters. -/
def Reader.advanceN (r : Reader) (n : Nat) : Reader :=
  { r with state := (r.remaining.take n).foldl advanceChar r.state }

/-- Modelled from the spec: `read_n` reads the next `n` raw characters
verbatim, advancing the reader past them. -/
def Reader.read_n (r : Reader) (n : Nat) : String × Reader :=
  (String.mk (r.remaining.take n), r.advanceN n)

/-! ## Parse errors

Modelled from the spec: a parse error carries a position, an enumerated
reason and a recoverable flag; recoverable errors drive grammar alternative
selection, non-recoverable errors abort the parse. -/

inductive ParseErrorKind where
  | Expecting (value : String)
  | NoAlternative
deriving DecidableEq, Repr

structure PErr where
  pos : Pos
  recoverable : Bool
  inner : ParseErrorKind
deriving DecidableEq, Repr

/-- A parser either produces a value together with the advanced reader, or a
parse error (for recoverable errors the caller resumes from its own saved
reader, so no reader is returned with an error). -/
abbrev ParseResult (α : Type) : Type := Except PErr (α × Reader)

abbrev ParserFn (α : Type) : Type := Reader → ParseResult α

/-! ## Combinator primitives (modelled from the spec, §4.1) -/

/-- Helper for `literal`: match the pattern characters against the remaining
input, advancing the state; on the first mismatching character (or end of
input) fail non-recoverably there, reporting the whole expected literal. -/
def literalAux (s : String) : List Char → ReaderState → List Char → Except PErr ReaderState
  | [], st, _ => .ok st
  | _ :: _, st, [] => .error { pos := st.pos, recoverable := false, inner := .Expecting s }
  | p :: ps, st, c :: rest =>
    if c = p then literalAux s ps (advanceChar st c) rest
    else .error { pos := st.pos, recoverable := false, inner := .Expecting s }

/-- Modelled from the spec: `literal(text, reader)` consumes `text` verbatim
or fails non-recoverably at the first mismatching character. -/
def literal (s : String) (r : Reader) : ParseResult Unit :=
  match literalAux s s.data r.state r.remaining with
  | .ok st => .ok ((), { r with state := st })
  | .error e => .error e

/-- Modelled from the spec: `try_literal(text, reader)` is like `literal` but
fails recoverably (at the saved start position, reader restored) when the
text does not match. -/
def try_literal (s : String) (r : Reader) : ParseResult Unit :=
  match literal s r with
  | .ok x => .ok x
  | .error _ => .error { pos := r.state.pos, recoverable := true, inner := .Expecting s }

/-- Modelled from the spec: `choice` tries each parser in order; a
recoverable failure restores the position and tries the next; a
non-recoverable failure propagates immediately; if all fail recoverably the
last error is returned. -/
def choice {α : Type} : List (ParserFn α) → Reader → ParseResult α
  | [], r => .error { pos := r.state.pos, recoverable := false, inner := .NoAlternative }
  | [p], r => p r
  | p :: q :: ps, r =>
    match p r with
    | .ok v => .ok v
    | .error e => if e.recoverable then choice (q :: ps) r else .error e

structure SourceInfo where
  start : Pos
  stop : Pos
deriving DecidableEq, Repr

structure Whitespace where
  value : String
  source_info : SourceInfo
deriving DecidableEq, Repr

structure Filename where
  value : String
  source_info : SourceInfo
deriving DecidableEq, Repr

def isSpaceChar (c : Char) : Bool := c = ' ' || c = '\t'

/-- Modelled from the spec: greedily consumes space/tab characters; always
succeeds, returning the consumed text with its span. -/
def zero_or_more_spaces (r : Reader) : ParseResult Whitespace :=
  let cs := r.remaining.takeWhile isSpaceChar
  let r' := r.advanceN cs.length
  .ok ({ value := String.mk cs, source_info := { start := r.state.pos, stop := r'.state.pos } }, r')

def filenameChar (c : Char) : Bool :=
  !(c = ';' || c = ' ' || c = '\t' || c = '\n' || c = '#')

/-- Modelled from the spec: a filename is a non-empty run of filename
characters, captured with its span. -/
def filename (r : Reader) : ParseResult Filename :=
  let cs := r.remaining.takeWhile filenameChar
  if cs.isEmpty then
    .error { pos := r.state.pos, recoverable := false, inner := .Expecting "filename" }
  else
    let r' := r.advanceN cs.length
    .ok ({ value := String.mk cs, source_info := { start := r.state.pos, stop := r'.state.pos } }, r')

/-! ## Base64 value parsing

Modelled from the spec: the base64 value parser greedily consumes base64
alphabet characters, ignoring interleaved insignificant whitespace; `=`
padding ends the payload; it never fails (possibly consuming nothing),
returning the decoded byte sequence. -/

def isB64Ws (c : Char) : Bool := c = ' ' || c = '\n' || c = '\t'

/-- The 6-bit value of a base64 alphabet character; `none` for any other
character (whitespace and padding included). -/
def charValue (c : Char) : Option Nat :=
  if 'A' ≤ c ∧ c ≤ 'Z' then some (c.toNat - 'A'.toNat)
  else if 'a' ≤ c ∧ c ≤ 'z' then some (c.toNat - 'a'.toNat + 26)
  else if '0' ≤ c ∧ c ≤ '9' then some (c.toNat - '0'.toNat + 52)
  else if c = '+' then some 62
  else if c = '/' then some 63
  else none

/-- Decode one final group of 6-bit values (2, 3 or 4 of them) into bytes. -/
def decodeGroup : List Nat → List Nat
  | [a, b] => [a * 4 + b / 16]
  | [a, b, c] => [a * 4 + b / 16, (b % 16) * 16 + c / 4]
  | [a, b, c, d] => [a * 4 + b / 16, (b % 16) * 16 + c / 4, (c % 4) * 64 + d]
  | _ => []

/-- Decode a whole sequence of 6-bit values, four at a time, the leftover
group (if any) at the end. -/
def decodeValues : List Nat → List Nat
  | a :: b :: c :: d :: rest => decodeGroup [a, b, c, d] ++ decodeValues rest
  | leftover => decodeGroup leftover

/-- How many padding characters one `=` opens: two when a second `=`
follows immediately, else one. -/
def padWidth : List Char → Nat
  | [] => 1
  | c :: _ => if c = '=' then 2 else 1

/-- The scanning loop of the base64 value parser: walk the remaining input,
buffering up to four 6-bit values at a time and emitting decoded bytes;
whitespace is consumed and ignored; `=` padding (one or two characters) is
consumed and ends the payload; any other character ends the payload without
being consumed. Returns the number of characters consumed and the decoded
bytes. -/
def b64scan : List Char → List Nat → List Nat → Nat × List Nat
  | [], buf, acc => (0, acc ++ decodeGroup buf)
  | c :: rest, buf, acc =>
    if c = '=' then
      (padWidth rest, acc ++ decodeGroup buf)
    else if isB64Ws c then
      let s := b64scan rest buf acc
      (s.1 + 1, s.2)
    else
      match charValue c with
      | none => (0, acc ++ decodeGroup buf)
      | some v =>
        if buf.length = 3 then
          let s := b64scan rest [] (acc ++ decodeGroup (buf ++ [v]))
          (s.1 + 1, s.2)
        else
          let s := b64scan rest (buf ++ [v]) acc
          (s.1 + 1, s.2)

namespace base64

/-- Modelled from the spec: the base64 value parser (`parser/base64.rs`,
not under verification sources): consumes the payload characters and
returns the decoded bytes, never failing. -/
def parse (r : Reader) : List Nat × Reader :=
  let s := b64scan r.remaining [] []
  (s.2, r.advanceN s.1)

end base64

/-- Strip insignificant base64 whitespace from a character sequence. -/
def stripWs (l : List Char) : List Char := l.filter (fun c => !isB64Ws c)

/-- Reference base64 decoder used to state the round-trip property: map the
alphabet characters of a whitespace-free encoded text to their 6-bit values
(padding contributes nothing) and decode them in groups. -/
def b64decode (l : List Char) : List Nat := decodeValues (l.filterMap charValue)

/-! ## The body-content AST (`Bytes`) and its grammar (`parser/bytes.rs`) -/

inductive JsonValue where
  | jBool (b : Bool)
  | jNull
  | jNumber (digits : String)
deriving DecidableEq, Repr

inductive Bytes where
  | json (value : JsonValue)
  | xml (value : String)
  | rawString (value : String)
  | base64 (space0 : Whitespace) (value : List Nat) (encoded : String) (space1 : Whitespace)
  | file (space0 : Whitespace) (filename : Filename) (space1 : Whitespace)
deriving DecidableEq, Repr

def isDigitChar (c : Char) : Bool := '0' ≤ c && c ≤ '9'

/-- Modelled from the spec: one literal token of the JSON subset grammar. -/
def json_token (tok : String) (v : JsonValue) (r : Reader) : ParseResult JsonValue :=
  match try_literal tok r with
  | .error e => .error e
  | .ok (_, r') => .ok (v, r')

/-- Modelled from the spec: an integer number of the JSON subset grammar:
a non-empty digit run, failing recoverably when the input does not start
with a digit. -/
def json_number (r : Reader) : ParseResult JsonValue :=
  let cs := r.remaining.takeWhile isDigitChar
  if cs.isEmpty then
    .error { pos := r.state.pos, recoverable := true, inner := .Expecting "number" }
  else
    .ok (.jNumber (String.mk cs), r.advanceN cs.length)

/-- Modelled from the spec: the JSON sub-parser is an independent grammar
reused by this module (`parser/json.rs`, not under verification sources);
only a representative subset (booleans, null, integers) is modelled. A
character that cannot start one of these yields a recoverable error, as
required for choice backtracking. -/
def json_parse (r : Reader) : ParseResult JsonValue :=
  choice [json_token "true" (.jBool true), json_token "false" (.jBool false),
          json_token "null" .jNull, json_number] r

/-- Modelled from the spec: the XML sub-parser (`parser/xml.rs`, not under
verification sources) returns the raw markup text; modelled for a single
self-contained element: recoverable failure when the input does not start
with `<`, then the markup text up to and including the first `>`. -/
def xml_parse (r : Reader) : ParseResult String :=
  match r.remaining with
  | '<' :: rest =>
    match rest.takeWhile (fun c => !(c = '>')) with
    | inner =>
      if inner.length + 1 < (r.remaining.length) then
        let cs := '<' :: inner ++ ['>']
        .ok (String.mk cs, r.advanceN cs.length)
      else
        .error { pos := r.state.pos, recoverable := false, inner := .Expecting ">" }
  | _ => .error { pos := r.state.pos, recoverable := true, inner := .Expecting "<" }

/-- Helper for `raw_string`: scan for the closing triple-backtick fence,
returning the number of content characters before it and whether it was
found. -/
def rawFenceScan (fence : List Char) : List Char → Nat × Bool
  | [] => (0, false)
  | c :: rest =>
    if (c :: rest).take 3 = fence then (0, true)
    else
      let s := rawFenceScan fence rest
      (s.1 + 1, s.2)

def fenceChars : List Char := [Char.ofNat 96, Char.ofNat 96, Char.ofNat 96]

def fenceText : String := String.mk fenceChars

/-- Modelled from the spec: a raw string body is fenced by triple backticks;
the opening fence is probed recoverably, after which a missing closing fence
is a fatal error at the end of the scanned content. -/
def raw_string (r : Reader) : ParseResult Bytes :=
  match try_literal fenceText r with
  | .error e => .error e
  | .ok (_, r1) =>
    let s := rawFenceScan fenceChars r1.remaining
    if s.2 then
      let content := r1.remaining.take s.1
      let r2 := r1.advanceN s.1
      match literal fenceText r2 with
      | .error e => .error e
      | .ok (_, r3) => .ok (.rawString (String.mk content), r3)
    else
      let r2 := r1.advanceN s.1
      .error { pos := r2.state.pos, recoverable := false, inner := .Expecting fenceText }

/-- `xml_bytes` (from `parser/bytes.rs`): wrap the XML sub-parser into the
`Bytes` union, passing its error through unchanged. -/
def xml_bytes (r : Reader) : ParseResult Bytes :=
  match xml_parse r with
  | .error e => .error e
  | .ok (value, r') => .ok (.xml value, r')

/-- `json_bytes` (from `parser/bytes.rs`): wrap the JSON sub-parser into the
`Bytes` union, passing its error through unchanged. -/
def json_bytes (r : Reader) : ParseResult Bytes :=
  match json_parse r with
  | .error e => .error e
  | .ok (value, r') => .ok (.json value, r')

/-- `file_bytes` (from `parser/bytes.rs`): grammar
`"file" "," ws filename ws ";"`; the keyword is probed with `try_literal`,
everything after it is committed. -/
def file_bytes (r : Reader) : ParseResult Bytes :=
  match try_literal "file" r with
  | .error e => .error e
  | .ok (_, r1) =>
  match literal "," r1 with
  | .error e => .error e
  | .ok (_, r2) =>
  match zero_or_more_spaces r2 with
  | .error e => .error e
  | .ok (space0, r3) =>
  match filename r3 with
  | .error e => .error e
  | .ok (f, r4) =>
  match zero_or_more_spaces r4 with
  | .error e => .error e
  | .ok (space1, r5) =>
  match literal ";" r5 with
  | .error e => .error e
  | .ok (_, r6) => .ok (.file space0 f space1, r6)

/-- `base64_bytes` (from `parser/bytes.rs`): grammar
`"base64" "," ws <payload> ws ";"`; the payload is parsed speculatively with
the base64 value parser, then the reader is rewound to the saved state and
exactly the consumed character count is re-read verbatim as the encoded
text. -/
def base64_bytes (r : Reader) : ParseResult Bytes :=
  match try_literal "base64" r with
  | .error e => .error e
  | .ok (_, r1) =>
  match literal "," r1 with
  | .error e => .error e
  | .ok (_, r2) =>
  match zero_or_more_spaces r2 with
  | .error e => .error e
  | .ok (space0, r3) =>
  let pr := base64.parse r3
  let count := pr.2.state.cursor - r3.state.cursor
  let er := Reader.read_n r3 count
  match zero_or_more_spaces er.2 with
  | .error e => .error e
  | .ok (space1, r5) =>
  match literal ";" r5 with
  | .error e => .error e
  | .ok (_, r6) => .ok (.base64 space0 pr.1 er.1 space1, r6)

/-- The reader positioned at the start of the base64 payload (after the
`base64` keyword, the comma and the leading whitespace), when the prefix of
the construct matches. -/
def base64_payload_start (r : Reader) : Option Reader :=
  match try_literal "base64" r with
  | .error _ => none
  | .ok (_, r1) =>
  match literal "," r1 with
  | .error _ => none
  | .ok (_, r2) =>
  match zero_or_more_spaces r2 with
  | .error _ => none
  | .ok (_, r3) => some r3

/-- `bytes` (from `parser/bytes.rs`): the public entry point tries the
variant parsers in declared order through `choice`. -/
def bytes (r : Reader) : ParseResult Bytes :=
  choice [raw_string, json_bytes, xml_bytes, base64_bytes, file_bytes] r

/-! ## The entry runner (`runner/entry.rs`)

The runner's collaborators — template evaluation (`Request::eval`), capture
evaluation (`Response::eval_captures`), assertion evaluation
(`Response::eval_asserts`), URL parsing (the `url` crate) and the HTTP
client — are not under the verification sources; they are passed in as
explicit function parameters, so every theorem below quantifies over them.
Logging (`Logger::verbose`) is purely side-effecting with no control-flow
impact and is not modelled. A Rust panic (`unwrap`) is modelled by the
runner returning `none`. -/

inductive Value where
  | vString (s : String)
  | vNum (n : Int)
  | vBool (b : Bool)
deriving DecidableEq, Repr

abbrev VarEnv := List (String × Value)

def lookupVar (env : VarEnv) (n : String) : Option Value :=
  (env.find? (fun p => p.1 = n)).map (fun p => p.2)

/-- `HashMap::insert` semantics: the new binding replaces any prior binding
with the same name. -/
def insertVar (env : VarEnv) (n : String) (v : Value) : VarEnv :=
  (n, v) :: env.filter (fun p => !(p.1 = n))

inductive RunnerErrorInner where
  | httpConnection (message : String) (url : String)
  | templateVariableNotDefined (name : String)
  | fileReadAccess (value : String)
  | queryNonScalarValue
  | other (descr : String)
deriving DecidableEq, Repr

/-- `runner::core::Error`: a runner error with its source span and a flag
telling whether it arose from an assertion. -/
structure Error where
  source_info : SourceInfo
  inner : RunnerErrorInner
  assert : Bool
deriving DecidableEq, Repr

structure HttpRequest where
  url : String
  cookies : List (String × String)
deriving DecidableEq, Repr

structure HttpResponse where
  status : Nat
  body : String
deriving DecidableEq, Repr

/-- `http::Cookie`, the Netscape cookie-file shape used by the client's
cookie store. -/
structure Cookie where
  domain : String
  include_subdomain : String
  path : String
  https : String
  expires : String
  name : String
  value : String
deriving DecidableEq, Repr

/-- Model of a parsed `url::Url`: only `host_str()` is consumed by the
runner. -/
structure ParsedUrl where
  host : Option String
deriving DecidableEq, Repr

structure CaptureResult where
  name : String
  value : Value
deriving DecidableEq, Repr

inductive AssertResult where
  | success
  | failure (e : Error)
deriving DecidableEq, Repr

/-- `AssertResult::error()`: the failure record of an assertion result, if
any. -/
def AssertResult.error : AssertResult → Option Error
  | .success => none
  | .failure e => some e

structure EntryResult where
  request : Option HttpRequest
  response : Option HttpResponse
  captures : List CaptureResult
  asserts : List AssertResult
  errors : List Error
  time_in_ms : Nat
deriving DecidableEq, Repr

/-- The runner's collaborators: URL parsing, the HTTP transport, and the
wall-clock time measured around a successful call. -/
structure Collab where
  urlParse : String → Option ParsedUrl
  execute : HttpRequest → Except String HttpResponse
  elapsed : Nat

/-- The evaluation interface of a `ResponseSpec`: `eval_captures` and
`eval_asserts` (repository code not under the verification sources). -/
structure ResponseSpecEval where
  eval_captures : HttpResponse → VarEnv → Except Error (List CaptureResult)
  eval_asserts : VarEnv → HttpResponse → String → List AssertResult

/-- The evaluation interface of an `Entry`: the request's template
evaluation (`Request::eval`, not under the verification sources), the
request URL's source span, and the optional response spec. -/
structure EntryEval where
  eval_request : VarEnv → String → Except Error HttpRequest
  url_source_info : SourceInfo
  response : Option ResponseSpecEval

/-- The cookie-seeding loop of `run` (entry.rs lines 80-93): for each cookie
literal of the request, a cookie-store entry with `domain =
url.host_str().unwrap()` is appended; `none` models the panic of the
`unwrap` when the parsed URL has no host. -/
def seedCookies (url : ParsedUrl) : List (String × String) → List Cookie → Option (List Cookie)
  | [], store => some store
  | c :: rest, store =>
    match url.host with
    | none => none
    | some h =>
      seedCookies url rest
        (store ++ [{ domain := h, include_subdomain := "FALSE", path := "/",
                     https := "FALSE", expires := "0", name := c.1, value := c.2 }])

/-- The cookie-seeding step of `run`: a URL that fails to parse skips
seeding silently; a URL that parses runs the seeding loop. -/
def seedStep (C : Collab) (req : HttpRequest) (store : List Cookie) : Option (List Cookie) :=
  match C.urlParse req.url with
  | some url => seedCookies url req.cookies store
  | none => some store

/-- Insert every capture into the variable environment, in order (entry.rs
lines 148-151). -/
def insertCaptures (env : VarEnv) (cs : List CaptureResult) : VarEnv :=
  cs.foldl (fun e c => insertVar e c.name c.value) env

/-- Re-tag assertion failures as assertion errors (entry.rs lines 157-169). -/
def assertErrors (asserts : List AssertResult) : List Error :=
  (asserts.filterMap AssertResult.error).map
    (fun e => { source_info := e.source_info, inner := e.inner, assert := true })

/-- `run` (from `runner/entry.rs`): process one entry against the shared
variable environment and the client's cookie store, returning the
`EntryResult` together with the updated environment and store; `none`
models a panic. -/
def run (entry : EntryEval) (C : Collab) (store : List Cookie) (vars : VarEnv)
    (context_dir : String) : Option (EntryResult × VarEnv × List Cookie) :=
  match entry.eval_request vars context_dir with
  | .error error =>
    some ({ request := none, response := none, captures := [], asserts := [],
            errors := [error], time_in_ms := 0 }, vars, store)
  | .ok http_request =>
  match seedStep C http_request store with
  | none => none
  | some store' =>
  match C.execute http_request with
  | .error _ =>
    some ({ request := some http_request, response := none, captures := [], asserts := [],
            errors := [{ source_info := entry.url_source_info,
                         inner := .httpConnection "" http_request.url,
                         assert := false }],
            time_in_ms := 0 }, vars, store')
  | .ok http_response =>
  let time_in_ms := C.elapsed
  match entry.response with
  | none =>
    some ({ request := some http_request, response := some http_response, captures := [],
            asserts := [], errors := assertErrors [], time_in_ms := time_in_ms },
          vars, store')
  | some response =>
  match response.eval_captures http_response vars with
  | .error e =>
    some ({ request := some http_request, response := some http_response, captures := [],
            asserts := [], errors := [e], time_in_ms := time_in_ms }, vars, store')
  | .ok captures =>
  let vars' := insertCaptures vars captures
  let asserts := response.eval_asserts vars' http_response context_dir
  some ({ request := some http_request, response := some http_response, captures := captures,
          asserts := asserts, errors := assertErrors asserts, time_in_ms := time_in_ms },
        vars', store')

/-! ### Spec-modelled capture and assertion evaluation

`ResponseSpec::eval_captures` / `eval_asserts` are repository code not
under the verification sources; the claims about their iteration order are
settled against these models. -/

/-- A declared capture: a name and an extraction rule over the response and
the environment. -/
structure CaptureRule where
  name : String
  rule : HttpResponse → VarEnv → Except Error Value

/-- Modelled from the spec: capture evaluation walks the declared captures
in order; the first failing rule aborts the whole evaluation with that
error, never evaluating later rules. -/
def eval_captures_model : List CaptureRule → HttpResponse → VarEnv → Except Error (List CaptureResult)
  | [], _, _ => .ok []
  | c :: rest, resp, env =>
    match c.rule resp env with
    | .error e => .error e
    | .ok v =>
      match eval_captures_model rest resp env with
      | .error e => .error e
      | .ok cs => .ok ({ name := c.name, value := v } :: cs)

/-- A declared assertion: its check yields `none` for a pass and a failure
record otherwise. -/
structure AssertionSpec where
  check : VarEnv → HttpResponse → String → Option Error

/-- Modelled from the spec: assertion evaluation runs **every** declared
assertion, each producing a pass or a failure record; failures are
collected, never raised. -/
def eval_asserts_model (specs : List AssertionSpec) (env : VarEnv) (resp : HttpResponse)
    (ctx : String) : List AssertResult :=
  specs.map (fun a =>
    match a.check env resp ctx with
    | none => .success
    | some e => .failure e)

/-- Package spec-modelled capture rules and assertions as a
`ResponseSpecEval`. -/
def mkResponseSpec (captures : List CaptureRule) (asserts : List AssertionSpec) : ResponseSpecEval :=
  { eval_captures := eval_captures_model captures,
    eval_asserts := eval_asserts_model asserts }

/-! ## Concrete entries and collaborators used for evaluation -/

def siW : SourceInfo :=
  { start := { line := 1, column := 1 }, stop := { line := 1, column := 10 } }

def respW : HttpResponse := { status := 200, body := "hello" }

/-- A collaborator whose URL parsing fails (cookie seeding is skipped
silently) and whose transport succeeds. -/
def collabOkW : Collab :=
  { urlParse := fun _ => none, execute := fun _ => .ok respW, elapsed := 5 }

/-- A collaborator whose URL parsing fails and whose transport fails with no
message detail. -/
def collabFailW : Collab :=
  { urlParse := fun _ => none, execute := fun _ => .error "", elapsed := 5 }

/-- A collaborator whose URL parsing succeeds with a URL that has no host
component (as `url::Url::parse` does for `mailto:` URLs). -/
def collabHostlessW : Collab :=
  { urlParse := fun _ => some { host := none }, execute := fun _ => .ok respW, elapsed := 5 }

def reqW : HttpRequest := { url := "http://example.org/x", cookies := [] }

/-- A resolved request carrying a cookie literal whose URL, like
`mailto:alice@example.com`, parses but has no host. -/
def reqCookieW : HttpRequest :=
  { url := "mailto:alice@example.com", cookies := [("theme", "dark")] }

def errAssertW : Error :=
  { source_info := siW, inner := .other "assert failed", assert := false }

def capErrW : Error :=
  { source_info := siW, inner := .other "capture failed", assert := false }

/-- A response spec capturing `id := "7"` and asserting that the variable
`id` equals `"7"` — the assertion only passes if it reads the freshly
captured value. -/
def specRespW : ResponseSpecEval :=
  { eval_captures := fun _ _ => .ok [{ name := "id", value := .vString "7" }],
    eval_asserts := fun env _ _ =>
      [if lookupVar env "id" = some (.vString "7") then .success else .failure errAssertW] }

def entryW3 : EntryEval :=
  { eval_request := fun _ _ => .ok reqW, url_source_info := siW, response := some specRespW }

/-- An entry whose request resolves to a cookie-carrying request with a
host-less URL. -/
def entryW1 : EntryEval :=
  { eval_request := fun _ _ => .ok reqCookieW, url_source_info := siW, response := none }

/-- An entry whose template resolution fails with an undefined variable. -/
def entryW9 : EntryEval :=
  { eval_request := fun _ _ =>
      .error { source_info := siW, inner := .templateVariableNotDefined "name", assert := false },
    url_source_info := siW, response := none }

/-- A response spec whose capture evaluation fails. -/
def specRespErrW : ResponseSpecEval :=
  { eval_captures := fun _ _ => .error capErrW, eval_asserts := fun _ _ _ => [] }

def entryW8 : EntryEval :=
  { eval_request := fun _ _ => .ok reqW, url_source_info := siW, response := some specRespErrW }

def aFail1 : AssertionSpec :=
  { check := fun _ _ _ => some { source_info := siW, inner := .other "a1", assert := false } }

def aPass : AssertionSpec := { check := fun _ _ _ => none }

def aFail3 : AssertionSpec :=
  { check := fun _ _ _ => some { source_info := siW, inner := .other "a3", assert := false } }

/-- An entry with three declared assertions of which the first and the third
fail, built over the spec-modelled capture/assert evaluation. -/
def entryW4 : EntryEval :=
  { eval_request := fun _ _ => .ok reqW, url_source_info := siW,
    response := some (mkResponseSpec [] [aFail1, aPass, aFail3]) }

/-! ## Lemmas: reader arithmetic and the base64 scanner -/

theorem foldl_advanceChar_cursor : ∀ (l : List Char) (st : ReaderState),
    (l.foldl advanceChar st).cursor = st.cursor + l.length
  | [], _ => by simp
  | c :: rest, st => by
    have ih := foldl_advanceChar_cursor rest (advanceChar st c)
    simp only [List.foldl_cons, List.length_cons]
    rw [ih]
    simp [advanceChar]
    omega

theorem advanceN_cursor (r : Reader) (n : Nat) :
    (r.advanceN n).state.cursor = r.state.cursor + min n r.remaining.length := by
  simp [Reader.advanceN, foldl_advanceChar_cursor]

theorem padWidth_le (l : List Char) : padWidth l ≤ 1 + l.length := by
  cases l with
  | nil => simp [padWidth]
  | cons c rest =>
    simp only [padWidth, List.length_cons]
    split <;> omega

theorem b64scan_le (l : List Char) : ∀ (buf acc : List Nat),
    (b64scan l buf acc).1 ≤ l.length := by
  induction l with
  | nil => intro buf acc; simp [b64scan]
  | cons c rest ih =>
    intro buf acc
    simp only [b64scan, List.length_cons]
    split
    · have := padWidth_le rest
      omega
    · split
      · have := ih buf acc
        simp only []
        omega
      · split
        · simp
        · rename_i v _
          split
          · have := ih [] (acc ++ decodeGroup (buf ++ [v]))
            simp only []
            omega
          · have := ih (buf ++ [v]) acc
            simp only []
            omega

theorem decodeValues_small : ∀ (l : List Nat), l.length ≤ 3 → decodeValues l = decodeGroup l
  | [], _ => rfl
  | [_], _ => rfl
  | [_, _], _ => rfl
  | [_, _, _], _ => rfl
  | _ :: _ :: _ :: _ :: _, h => by simp at h

theorem charValue_eq_none_of_ws (c : Char) (h : isB64Ws c = true) : charValue c = none := by
  simp only [isB64Ws, Bool.or_eq_true, decide_eq_true_eq] at h
  rcases h with (h | h) | h <;> subst h <;> decide

theorem charValue_pad : charValue '=' = none := by decide

theorem filterMap_stripWs (l : List Char) :
    (stripWs l).filterMap charValue = l.filterMap charValue := by
  induction l with
  | nil => rfl
  | cons c rest ih =>
    by_cases h : isB64Ws c
    · simp [stripWs, List.filter_cons, h, List.filterMap_cons,
        charValue_eq_none_of_ws c h] at ih ⊢
      exact ih
    · simp only [stripWs, List.filter_cons] at ih ⊢
      simp only [h, Bool.not_false, if_pos, List.filterMap_cons]
      cases charValue c <;> simp [ih]

theorem filterMap_padTake (rest : List Char) :
    (List.take (padWidth rest) ('=' :: rest)).filterMap charValue = [] := by
  cases rest with
  | nil => simp [padWidth, charValue_pad]
  | cons c2 rest2 =>
    simp only [padWidth]
    split
    · rename_i h
      subst h
      simp [charValue_pad]
    · simp [charValue_pad]

/-- The incremental scan decodes exactly the 6-bit values of the characters
it consumes: the buffered group invariant. -/
theorem b64scan_bytes (l : List Char) : ∀ (buf acc : List Nat), buf.length ≤ 3 →
    (b64scan l buf acc).2 =
      acc ++ decodeValues (buf ++ ((l.take (b64scan l buf acc).1).filterMap charValue)) := by
  induction l with
  | nil =>
    intro buf acc h
    simp [b64scan, decodeValues_small buf h]
  | cons c rest ih =>
    intro buf acc h
    by_cases hc : c = '='
    · subst hc
      have hs : b64scan ('=' :: rest) buf acc = (padWidth rest, acc ++ decodeGroup buf) := by
        simp [b64scan]
      rw [hs]
      rw [filterMap_padTake rest]
      simp [decodeValues_small buf h]
    · by_cases hw : isB64Ws c
      · have hcv := charValue_eq_none_of_ws c hw
        have hs : b64scan (c :: rest) buf acc =
            ((b64scan rest buf acc).1 + 1, (b64scan rest buf acc).2) := by
          simp [b64scan, hc, hw]
        rw [hs]
        have := ih buf acc h
        simp only [List.take_succ_cons, List.filterMap_cons, hcv]
        exact this
      · cases hv : charValue c with
        | none =>
          have hs : b64scan (c :: rest) buf acc = (0, acc ++ decodeGroup buf) := by
            simp [b64scan, hc, hw, hv]
          rw [hs]
          simp [decodeValues_small buf h]
        | some v =>
          by_cases hb : buf.length = 3
          · obtain ⟨a, b, c3, rfl⟩ := List.length_eq_three.mp hb
            have hs : b64scan (c :: rest) [a, b, c3] acc =
                ((b64scan rest [] (acc ++ decodeGroup ([a, b, c3] ++ [v]))).1 + 1,
                 (b64scan rest [] (acc ++ decodeGroup ([a, b, c3] ++ [v]))).2) := by
              simp [b64scan, hc, hw, hv]
            rw [hs]
            have := ih [] (acc ++ decodeGroup ([a, b, c3] ++ [v])) (by simp)
            simp only [List.take_succ_cons, List.filterMap_cons, hv]
            rw [this]
            simp [decodeValues, List.append_assoc]
          · have hs : b64scan (c :: rest) buf acc =
                ((b64scan rest (buf ++ [v]) acc).1 + 1, (b64scan rest (buf ++ [v]) acc).2) := by
              simp [b64scan, hc, hw, hv, hb]
            rw [hs]
            have hlen : (buf ++ [v]).length ≤ 3 := by
              simp only [List.length_append, List.length_singleton]
              omega
            have := ih (buf ++ [v]) acc hlen
            simp only [List.take_succ_cons, List.filterMap_cons, hv]
            rw [this]
            simp [List.append_assoc]

/-- The cursor distance travelled by the speculative base64 parse is exactly
the number of characters the scan consumed. -/
theorem b64parse_count (r : Reader) :
    (base64.parse r).2.state.cursor - r.state.cursor = (b64scan r.remaining [] []).1 := by
  have hle := b64scan_le r.remaining [] []
  simp only [base64.parse, advanceN_cursor]
  omega

/-- Core of the round-trip property: rewinding after the speculative base64
parse and re-reading the travelled cursor distance yields exactly the
consumed raw characters, leaves the reader at the very state the parse
reached, and the re-read text decodes (after discounting whitespace) to the
parsed byte sequence. -/
theorem b64_roundtrip_core (r : Reader) :
    (Reader.read_n r ((base64.parse r).2.state.cursor - r.state.cursor)).1.data
      = r.remaining.take ((base64.parse r).2.state.cursor - r.state.cursor)
    ∧ (Reader.read_n r ((base64.parse r).2.state.cursor - r.state.cursor)).2
      = (base64.parse r).2
    ∧ b64decode (stripWs
        (Reader.read_n r ((base64.parse r).2.state.cursor - r.state.cursor)).1.data)
      = (base64.parse r).1 := by
  rw [b64parse_count r]
  refine ⟨rfl, rfl, ?_⟩
  simp only [Reader.read_n]
  rw [b64decode, filterMap_stripWs]
  have := b64scan_bytes r.remaining [] [] (by simp)
  simp only [List.nil_append] at this
  exact this.symm

/-- C5: parsing a file-content construct with `file_bytes` on input
`"fil; filename1;"` fails recoverably at line 1, column 1 (the keyword never
matched); on input `"file, filename1"` (no terminating semicolon) it fails
non-recoverably with a missing-`;` error at line 1, column 16, the character
immediately after the filename and trailing whitespace. -/
theorem file_bytes_error_positions :
    file_bytes (Reader.init "fil; filename1;")
      = .error { pos := { line := 1, column := 1 }, recoverable := true,
                 inner := .Expecting "file" }
    ∧ file_bytes (Reader.init "file, filename1")
      = .error { pos := { line := 1, column := 16 }, recoverable := false,
                 inner := .Expecting ";" } :=
  ⟨rfl, rfl⟩

/-- C6: the public parser `bytes` tries the variant parsers in exactly the
order raw_string, json_bytes, xml_bytes, base64_bytes, file_bytes; a
recoverable failure of one variant moves on to the next from the restored
position, a non-recoverable failure propagates immediately without trying
further variants, a single remaining variant's error is returned as the
last error, and on empty input the result is the last variant's recoverable
"expecting 'file'" error. -/
theorem bytes_choice_order :
    (∀ r : Reader, bytes r = choice [raw_string, json_bytes, xml_bytes, base64_bytes, file_bytes] r)
    ∧ (∀ (α : Type) (p q : ParserFn α) (ps : List (ParserFn α)) (r : Reader) (e : PErr),
        p r = .error e → e.recoverable = true → choice (p :: q :: ps) r = choice (q :: ps) r)
    ∧ (∀ (α : Type) (p q : ParserFn α) (ps : List (ParserFn α)) (r : Reader) (e : PErr),
        p r = .error e → e.recoverable = false → choice (p :: q :: ps) r = .error e)
    ∧ (∀ (α : Type) (p : ParserFn α) (r : Reader), choice [p] r = p r)
    ∧ bytes (Reader.init "")
        = .error { pos := { line := 1, column := 1 }, recoverable := true,
                   inner := .Expecting "file" } := by
  refine ⟨fun _ => rfl, ?_, ?_, fun _ _ _ => rfl, rfl⟩
  · intro α p q ps r e hp hrec
    simp [choice, hp, hrec]
  · intro α p q ps r e hp hrec
    simp [choice, hp, hrec]

theorem bytes_choice_order_witness :
    choice [file_bytes, file_bytes] (Reader.init "") = choice [file_bytes] (Reader.init "")
    ∧ choice [file_bytes, json_bytes] (Reader.init "file, filename1")
        = .error { pos := { line := 1, column := 16 }, recoverable := false,
                   inner := .Expecting ";" } :=
  ⟨bytes_choice_order.2.1 Bytes file_bytes file_bytes [] (Reader.init "")
      { pos := { line := 1, column := 1 }, recoverable := true, inner := .Expecting "file" }
      rfl rfl,
   bytes_choice_order.2.2.1 Bytes file_bytes json_bytes [] (Reader.init "file, filename1")
      { pos := { line := 1, column := 16 }, recoverable := false, inner := .Expecting ";" }
      rfl rfl⟩

/-- C2: whenever `base64_bytes` succeeds, base64-decoding the captured
encoded string after discounting insignificant whitespace equals the
captured decoded byte sequence; and the encoded string is exactly the raw
source characters consumed by the speculative base64 value-parse — the
parser rewinds to the saved payload-start position and re-reads exactly
that many characters verbatim, the re-read leaving the reader at the same
position the speculative parse reached. -/
theorem base64_bytes_roundtrip (r : Reader) (sp0 : Whitespace) (v : List Nat)
    (enc : String) (sp1 : Whitespace) (r' : Reader)
    (h : base64_bytes r = .ok (Bytes.base64 sp0 v enc sp1, r')) :
    b64decode (stripWs enc.data) = v
    ∧ ∃ r3 : Reader, base64_payload_start r = some r3
        ∧ enc.data = r3.remaining.take ((base64.parse r3).2.state.cursor - r3.state.cursor)
        ∧ (Reader.read_n r3 ((base64.parse r3).2.state.cursor - r3.state.cursor)).2
            = (base64.parse r3).2 := by
  simp only [base64_bytes] at h
  split at h
  · exact absurd h (by simp)
  rename_i r1 heq1
  split at h
  · exact absurd h (by simp)
  rename_i u2 r2 heq2
  split at h
  · exact absurd h (by simp)
  rename_i sp0' r3 heq3
  split at h
  · exact absurd h (by simp)
  rename_i sp1' r5 heq5
  split at h
  · exact absurd h (by simp)
  rename_i u6 r6 heq6
  simp only [Except.ok.injEq, Prod.mk.injEq, Bytes.base64.injEq] at h
  obtain ⟨⟨hsp0, hv, henc, hsp1⟩, hr⟩ := h
  subst hv
  subst henc
  obtain ⟨hread, hpos, hdec⟩ := b64_roundtrip_core r3
  refine ⟨hdec, r3, ?_, hread, hpos⟩
  simp [base64_payload_start, heq1, heq2, heq3]

theorem base64_bytes_roundtrip_witness :
    b64decode (stripWs "T WE=".data) = [77, 97]
    ∧ ∃ r3 : Reader, base64_payload_start (Reader.init "base64,  T WE=;xxx") = some r3
        ∧ "T WE=".data = r3.remaining.take ((base64.parse r3).2.state.cursor - r3.state.cursor)
        ∧ (Reader.read_n r3 ((base64.parse r3).2.state.cursor - r3.state.cursor)).2
            = (base64.parse r3).2 :=
  base64_bytes_roundtrip (Reader.init "base64,  T WE=;xxx")
    { value := "  ", source_info := { start := { line := 1, column := 8 },
                                      stop := { line := 1, column := 10 } } }
    [77, 97] "T WE="
    { value := "", source_info := { start := { line := 1, column := 15 },
                                    stop := { line := 1, column := 15 } } }
    { buffer := "base64,  T WE=;xxx".data,
      state := { cursor := 15, pos := { line := 1, column := 16 } } }
    rfl

/-! ## Lemmas: the four terminal shapes of the runner -/

theorem run_template_error_eq (entry : EntryEval) (C : Collab) (store : List Cookie)
    (vars : VarEnv) (ctx : String) (e : Error)
    (h : entry.eval_request vars ctx = .error e) :
    run entry C store vars ctx
      = some ({ request := none, response := none, captures := [], asserts := [],
                errors := [e], time_in_ms := 0 }, vars, store) := by
  simp [run, h]

theorem run_connection_error_eq (entry : EntryEval) (C : Collab) (store store' : List Cookie)
    (vars : VarEnv) (ctx : String) (req : HttpRequest) (msg : String)
    (hreq : entry.eval_request vars ctx = .ok req)
    (hseed : seedStep C req store = some store')
    (hexec : C.execute req = .error msg) :
    run entry C store vars ctx
      = some ({ request := some req, response := none, captures := [], asserts := [],
                errors := [{ source_info := entry.url_source_info,
                             inner := .httpConnection "" req.url, assert := false }],
                time_in_ms := 0 }, vars, store') := by
  simp [run, hreq, hseed, hexec]

theorem run_capture_error_eq (entry : EntryEval) (C : Collab) (store store' : List Cookie)
    (vars : VarEnv) (ctx : String) (req : HttpRequest) (resp : ResponseSpecEval)
    (httpResp : HttpResponse) (e : Error)
    (hreq : entry.eval_request vars ctx = .ok req)
    (hseed : seedStep C req store = some store')
    (hexec : C.execute req = .ok httpResp)
    (hresp : entry.response = some resp)
    (hcap : resp.eval_captures httpResp vars = .error e) :
    run entry C store vars ctx
      = some ({ request := some req, response := some httpResp, captures := [], asserts := [],
                errors := [e], time_in_ms := C.elapsed }, vars, store') := by
  simp [run, hreq, hseed, hexec, hresp, hcap]

theorem run_success_eq (entry : EntryEval) (C : Collab) (store store' : List Cookie)
    (vars : VarEnv) (ctx : String) (req : HttpRequest) (resp : ResponseSpecEval)
    (httpResp : HttpResponse) (cs : List CaptureResult)
    (hreq : entry.eval_request vars ctx = .ok req)
    (hseed : seedStep C req store = some store')
    (hexec : C.execute req = .ok httpResp)
    (hresp : entry.response = some resp)
    (hcap : resp.eval_captures httpResp vars = .ok cs) :
    run entry C store vars ctx
      = some ({ request := some req, response := some httpResp, captures := cs,
                asserts := resp.eval_asserts (insertCaptures vars cs) httpResp ctx,
                errors := assertErrors (resp.eval_asserts (insertCaptures vars cs) httpResp ctx),
                time_in_ms := C.elapsed },
              insertCaptures vars cs, store') := by
  simp [run, hreq, hseed, hexec, hresp, hcap]

/-- Any error produced by `assertErrors` carries `assert = true`. -/
theorem mem_assertErrors_assert (asserts : List AssertResult) (e : Error)
    (h : e ∈ assertErrors asserts) : e.assert = true := by
  simp only [assertErrors, List.mem_map, List.mem_filterMap] at h
  obtain ⟨x, _, rfl⟩ := h
  rfl

/-- C1 (refutation by evaluation): contrary to the claim, `run` does not
always return an `EntryResult`: for an entry whose resolved request carries
a cookie literal and whose URL parses successfully but has no host
component, the cookie-seeding step panics (models
`url.host_str().unwrap()` at entry.rs line 83), so `run` aborts instead of
returning a value. -/
theorem run_panics_on_hostless_url :
    run entryW1 collabHostlessW [] [] "" = none := rfl

/-- C3: when every capture of the entry succeeds, each capture is written
into the shared variable environment (overwriting any prior binding of the
same name) before assertions run, so the assertion step evaluates against
the freshly updated environment `insertCaptures vars cs`, which is also the
environment `run` returns. -/
theorem run_captures_update_env_before_asserts (entry : EntryEval) (C : Collab)
    (store store' : List Cookie) (vars : VarEnv) (ctx : String) (req : HttpRequest)
    (resp : ResponseSpecEval) (httpResp : HttpResponse) (cs : List CaptureResult)
    (hreq : entry.eval_request vars ctx = .ok req)
    (hseed : seedStep C req store = some store')
    (hexec : C.execute req = .ok httpResp)
    (hresp : entry.response = some resp)
    (hcap : resp.eval_captures httpResp vars = .ok cs) :
    run entry C store vars ctx
      = some ({ request := some req, response := some httpResp, captures := cs,
                asserts := resp.eval_asserts (insertCaptures vars cs) httpResp ctx,
                errors := assertErrors (resp.eval_asserts (insertCaptures vars cs) httpResp ctx),
                time_in_ms := C.elapsed },
              insertCaptures vars cs, store')
    ∧ ∀ (env : VarEnv) (n : String) (v : Value), lookupVar (insertVar env n v) n = some v := by
  refine ⟨run_success_eq entry C store store' vars ctx req resp httpResp cs
    hreq hseed hexec hresp hcap, ?_⟩
  intro env n v
  simp [lookupVar, insertVar]

theorem run_captures_update_env_before_asserts_witness :
    run entryW3 collabOkW [] [] ""
      = some ({ request := some reqW, response := some respW,
                captures := [{ name := "id", value := .vString "7" }],
                asserts := specRespW.eval_asserts
                  (insertCaptures [] [{ name := "id", value := .vString "7" }]) respW "",
                errors := assertErrors (specRespW.eval_asserts
                  (insertCaptures [] [{ name := "id", value := .vString "7" }]) respW ""),
                time_in_ms := 5 },
              insertCaptures [] [{ name := "id", value := .vString "7" }], [])
    ∧ lookupVar (insertVar [] "id" (.vString "7")) "id" = some (.vString "7")
    ∧ specRespW.eval_asserts
        (insertCaptures [] [{ name := "id", value := .vString "7" }]) respW ""
        = [.success] :=
  ⟨(run_captures_update_env_before_asserts entryW3 collabOkW [] [] [] "" reqW specRespW respW
      [{ name := "id", value := .vString "7" }] rfl rfl rfl rfl rfl).1,
   (run_captures_update_env_before_asserts entryW3 collabOkW [] [] [] "" reqW specRespW respW
      [{ name := "id", value := .vString "7" }] rfl rfl rfl rfl rfl).2 [] "id" (.vString "7"),
   rfl⟩

/-- C4: when `run` reaches the assertion step, every declared assertion of
the response spec is evaluated (the asserts list has one record per
declared assertion, no short-circuit), the errors list is exactly the
assertion failures re-tagged with `assert = true`, and the request and
response stay populated. -/
theorem run_all_asserts_evaluated (entry : EntryEval) (C : Collab)
    (store store' : List Cookie) (vars : VarEnv) (ctx : String) (req : HttpRequest)
    (rules : List CaptureRule) (specs : List AssertionSpec)
    (httpResp : HttpResponse) (cs : List CaptureResult)
    (hreq : entry.eval_request vars ctx = .ok req)
    (hseed : seedStep C req store = some store')
    (hexec : C.execute req = .ok httpResp)
    (hresp : entry.response = some (mkResponseSpec rules specs))
    (hcap : eval_captures_model rules httpResp vars = .ok cs) :
    run entry C store vars ctx
      = some ({ request := some req, response := some httpResp, captures := cs,
                asserts := eval_asserts_model specs (insertCaptures vars cs) httpResp ctx,
                errors := assertErrors
                  (eval_asserts_model specs (insertCaptures vars cs) httpResp ctx),
                time_in_ms := C.elapsed },
              insertCaptures vars cs, store')
    ∧ (eval_asserts_model specs (insertCaptures vars cs) httpResp ctx).length = specs.length
    ∧ ∀ e ∈ assertErrors (eval_asserts_model specs (insertCaptures vars cs) httpResp ctx),
        e.assert = true := by
  refine ⟨run_success_eq entry C store store' vars ctx req (mkResponseSpec rules specs)
    httpResp cs hreq hseed hexec hresp hcap, by simp [eval_asserts_model], ?_⟩
  intro e he
  exact mem_assertErrors_assert _ e he

theorem run_all_asserts_evaluated_witness :
    run entryW4 collabOkW [] [] ""
      = some ({ request := some reqW, response := some respW, captures := [],
                asserts := eval_asserts_model [aFail1, aPass, aFail3]
                  (insertCaptures [] []) respW "",
                errors := assertErrors (eval_asserts_model [aFail1, aPass, aFail3]
                  (insertCaptures [] []) respW ""),
                time_in_ms := 5 },
              insertCaptures [] [], [])
    ∧ (eval_asserts_model [aFail1, aPass, aFail3] (insertCaptures [] []) respW "").length = 3
    ∧ eval_asserts_model [aFail1, aPass, aFail3] (insertCaptures [] []) respW ""
        = [.failure { source_info := siW, inner := .other "a1", assert := false },
           .success,
           .failure { source_info := siW, inner := .other "a3", assert := false }]
    ∧ assertErrors (eval_asserts_model [aFail1, aPass, aFail3] (insertCaptures [] []) respW "")
        = [{ source_info := siW, inner := .other "a1", assert := true },
           { source_info := siW, inner := .other "a3", assert := true }] :=
  ⟨(run_all_asserts_evaluated entryW4 collabOkW [] [] [] "" reqW [] [aFail1, aPass, aFail3]
      respW [] rfl rfl rfl rfl rfl).1,
   (run_all_asserts_evaluated entryW4 collabOkW [] [] [] "" reqW [] [aFail1, aPass, aFail3]
      respW [] rfl rfl rfl rfl rfl).2.1,
   rfl, rfl⟩

/-- C7: a connection-level failure of the transport is terminal: `run`
returns an `EntryResult` carrying the resolved request, no response, empty
captures and asserts, exactly one connection error with empty message and
the failing resolved URL attached (whatever message the transport
supplied), and elapsed time 0; the variable environment is unchanged and
the result does not depend on the response spec, so no capture or assertion
evaluation is attempted. -/
theorem run_connection_error_terminal (entry : EntryEval) (C : Collab)
    (store store' : List Cookie) (vars : VarEnv) (ctx : String) (req : HttpRequest)
    (msg : String)
    (hreq : entry.eval_request vars ctx = .ok req)
    (hseed : seedStep C req store = some store')
    (hexec : C.execute req = .error msg) :
    run entry C store vars ctx
      = some ({ request := some req, response := none, captures := [], asserts := [],
                errors := [{ source_info := entry.url_source_info,
                             inner := .httpConnection "" req.url, assert := false }],
                time_in_ms := 0 }, vars, store')
    ∧ ∀ resp2 : Option ResponseSpecEval,
        run { entry with response := resp2 } C store vars ctx
          = run entry C store vars ctx := by
  refine ⟨run_connection_error_eq entry C store store' vars ctx req msg hreq hseed hexec, ?_⟩
  intro resp2
  rw [run_connection_error_eq { entry with response := resp2 } C store store' vars ctx req msg
        hreq hseed hexec,
      run_connection_error_eq entry C store store' vars ctx req msg hreq hseed hexec]

theorem run_connection_error_terminal_witness :
    run entryW3 collabFailW [] [("k", .vString "v")] ""
      = some ({ request := some reqW, response := none, captures := [], asserts := [],
                errors := [{ source_info := siW,
                             inner := .httpConnection "" "http://example.org/x",
                             assert := false }],
                time_in_ms := 0 }, [("k", .vString "v")], [])
    ∧ run { entryW3 with response := none } collabFailW [] [("k", .vString "v")] ""
        = run entryW3 collabFailW [] [("k", .vString "v")] "" :=
  ⟨(run_connection_error_terminal entryW3 collabFailW [] [] [("k", .vString "v")] "" reqW ""
      rfl rfl rfl).1,
   (run_connection_error_terminal entryW3 collabFailW [] [] [("k", .vString "v")] "" reqW ""
      rfl rfl rfl).2 none⟩

/-- C8: a failing capture rule is terminal for the entry: `run` returns an
`EntryResult` with the request and response filled in, empty captures and
asserts, and exactly that one evaluation error; moreover (spec-modelled
capture evaluation) a failing rule aborts immediately, so the result does
not depend on the remaining capture rules. -/
theorem run_capture_error_terminal (entry : EntryEval) (C : Collab)
    (store store' : List Cookie) (vars : VarEnv) (ctx : String) (req : HttpRequest)
    (resp : ResponseSpecEval) (httpResp : HttpResponse) (e : Error)
    (hreq : entry.eval_request vars ctx = .ok req)
    (hseed : seedStep C req store = some store')
    (hexec : C.execute req = .ok httpResp)
    (hresp : entry.response = some resp)
    (hcap : resp.eval_captures httpResp vars = .error e) :
    run entry C store vars ctx
      = some ({ request := some req, response := some httpResp, captures := [],
                asserts := [], errors := [e], time_in_ms := C.elapsed }, vars, store')
    ∧ ∀ (rule : CaptureRule) (rest : List CaptureRule) (resp2 : HttpResponse)
        (env2 : VarEnv) (e2 : Error),
        rule.rule resp2 env2 = .error e2 →
        eval_captures_model (rule :: rest) resp2 env2 = .error e2 := by
  refine ⟨run_capture_error_eq entry C store store' vars ctx req resp httpResp e
    hreq hseed hexec hresp hcap, ?_⟩
  intro rule rest resp2 env2 e2 h
  simp [eval_captures_model, h]

theorem run_capture_error_terminal_witness :
    run entryW8 collabOkW [] [("k", .vString "v")] ""
      = some ({ request := some reqW, response := some respW, captures := [],
                asserts := [], errors := [capErrW], time_in_ms := 5 },
              [("k", .vString "v")], [])
    ∧ eval_captures_model
        [{ name := "a", rule := fun _ _ => .error capErrW }] respW [] = .error capErrW :=
  ⟨(run_capture_error_terminal entryW8 collabOkW [] [] [("k", .vString "v")] "" reqW
      specRespErrW respW capErrW rfl rfl rfl rfl rfl).1,
   (run_capture_error_terminal entryW8 collabOkW [] [] [("k", .vString "v")] "" reqW
      specRespErrW respW capErrW rfl rfl rfl rfl rfl).2
     { name := "a", rule := fun _ _ => .error capErrW } [] respW [] capErrW rfl⟩

/-- C9: a failing template resolution is terminal before anything else
happens: `run` returns an `EntryResult` with no request, no response, empty
captures and asserts, exactly the single template error and elapsed time 0;
the environment and cookie store are returned unchanged and the result does
not depend on the collaborators or the response spec at all — no cookie
seeding, no HTTP call, no capture or assertion evaluation. -/
theorem run_template_error_terminal (entry : EntryEval) (C : Collab)
    (store : List Cookie) (vars : VarEnv) (ctx : String) (e : Error)
    (h : entry.eval_request vars ctx = .error e) :
    run entry C store vars ctx
      = some ({ request := none, response := none, captures := [], asserts := [],
                errors := [e], time_in_ms := 0 }, vars, store)
    ∧ ∀ (C2 : Collab) (resp2 : Option ResponseSpecEval),
        run { entry with response := resp2 } C2 store vars ctx
          = run entry C store vars ctx := by
  refine ⟨run_template_error_eq entry C store vars ctx e h, ?_⟩
  intro C2 resp2
  rw [run_template_error_eq { entry with response := resp2 } C2 store vars ctx e h,
      run_template_error_eq entry C store vars ctx e h]

theorem run_template_error_terminal_witness :
    run entryW9 collabOkW [{ domain := "d", include_subdomain := "FALSE", path := "/",
                             https := "FALSE", expires := "0", name := "n", value := "v" }]
        [("k", .vString "v")] ""
      = some ({ request := none, response := none, captures := [], asserts := [],
                errors := [{ source_info := siW,
                             inner := .templateVariableNotDefined "name",
                             assert := false }],
                time_in_ms := 0 },
              [("k", .vString "v")],
              [{ domain := "d", include_subdomain := "FALSE", path := "/",
                 https := "FALSE", expires := "0", name := "n", value := "v" }])
    ∧ run { entryW9 with response := some specRespW } collabFailW
          [{ domain := "d", include_subdomain := "FALSE", path := "/",
             https := "FALSE", expires := "0", name := "n", value := "v" }]
          [("k", .vString "v")] ""
        = run entryW9 collabOkW
            [{ domain := "d", include_subdomain := "FALSE", path := "/",
               https := "FALSE", expires := "0", name := "n", value := "v" }]
            [("k", .vString "v")] "" :=
  ⟨(run_template_error_terminal entryW9 collabOkW _ [("k", .vString "v")] "" _ rfl).1,
   (run_template_error_terminal entryW9 collabOkW _ [("k", .vString "v")] "" _ rfl).2
     collabFailW (some specRespW)⟩

/-- C10: whenever `run` terminates before the capture-insertion step — on a
template-resolution failure, a connection failure, or a capture-evaluation
failure — the variable environment it received is returned unchanged. -/
theorem run_env_unchanged_on_failure (entry : EntryEval) (C : Collab)
    (store : List Cookie) (vars : VarEnv) (ctx : String) :
    (∀ e : Error, entry.eval_request vars ctx = .error e →
        (run entry C store vars ctx).map (fun t => t.2.1) = some vars)
    ∧ (∀ (req : HttpRequest) (store' : List Cookie) (msg : String),
        entry.eval_request vars ctx = .ok req →
        seedStep C req store = some store' → C.execute req = .error msg →
        (run entry C store vars ctx).map (fun t => t.2.1) = some vars)
    ∧ (∀ (req : HttpRequest) (store' : List Cookie) (resp : ResponseSpecEval)
        (httpResp : HttpResponse) (e : Error),
        entry.eval_request vars ctx = .ok req →
        seedStep C req store = some store' → C.execute req = .ok httpResp →
        entry.response = some resp → resp.eval_captures httpResp vars = .error e →
        (run entry C store vars ctx).map (fun t => t.2.1) = some vars) := by
  refine ⟨?_, ?_, ?_⟩
  · intro e h
    rw [run_template_error_eq entry C store vars ctx e h]
    rfl
  · intro req store' msg hreq hseed hexec
    rw [run_connection_error_eq entry C store store' vars ctx req msg hreq hseed hexec]
    rfl
  · intro req store' resp httpResp e hreq hseed hexec hresp hcap
    rw [run_capture_error_eq entry C store store' vars ctx req resp httpResp e
      hreq hseed hexec hresp hcap]
    rfl

theorem run_env_unchanged_on_failure_witness :
    (run entryW9 collabOkW [] [("k", .vString "v")] "").map (fun t => t.2.1)
      = some [("k", .vString "v")]
    ∧ (run entryW3 collabFailW [] [("k", .vString "v")] "").map (fun t => t.2.1)
      = some [("k", .vString "v")]
    ∧ (run entryW8 collabOkW [] [("k", .vString "v")] "").map (fun t => t.2.1)
      = some [("k", .vString "v")] :=
  ⟨(run_env_unchanged_on_failure entryW9 collabOkW [] [("k", .vString "v")] "").1 _ rfl,
   (run_env_unchanged_on_failure entryW3 collabFailW [] [("k", .vString "v")] "").2.1
     reqW [] "" rfl rfl rfl,
   (run_env_unchanged_on_failure entryW8 collabOkW [] [("k", .vString "v")] "").2.2
     reqW [] specRespErrW respW capErrW rfl rfl rfl rfl rfl⟩

end Hurl
